import Mathlib

/-!
Verification of the order-submission logic of the Robinhood client library
(`robinhood/Trader.py` and `robinhood/crypto_trader.py`).

The Python code is shallowly embedded: dynamically-typed JSON-like values
become the inductive `PyVal`, Python exceptions become the error side of
`Except PyErr`, Python floats are modelled as exact rationals, and the
HTTP transport is modelled by passing the responses (quote, instrument
search, account) as explicit parameters.  Each definition mirrors the
corresponding Python function line by line; the source line numbers are
cited in the doc comments.
-/

namespace Robinhood

/-- A dynamically typed Python value, restricted to the shapes that occur in
the order-submission code: `None`, strings, numbers (floats/Decimals as exact
rationals), ints, lists and string-keyed dicts (in insertion order). -/
inductive PyVal where
  | none
  | str (s : String)
  | num (q : ℚ)
  | int (n : ℤ)
  | list (xs : List PyVal)
  | dict (entries : List (String × PyVal))

/-- The Python exceptions raised by the embedded code. -/
inductive PyErr where
  | valueError (msg : String)
  | typeError (msg : String)
  | keyError (key : String)
  | attributeError (msg : String)
  | indexError
  | assertionError
  | zeroDivisionError
  | exc (msg : String)

/-- Python `s.lower()`: character-wise lower-casing, kept kernel-executable
by mapping over the character list. -/
def strLower (s : String) : String := String.mk (s.data.map Char.toLower)

/-- Python `s.upper()`: character-wise upper-casing. -/
def strUpper (s : String) : String := String.mk (s.data.map Char.toUpper)

/-- Python `v[k]` for a string key `k`: dict lookup (KeyError when absent);
subscripting a string or list with a string key, or a non-subscriptable
value, raises TypeError. -/
def pySubscript : PyVal → String → Except PyErr PyVal
  | PyVal.dict entries, k =>
      match List.lookup k entries with
      | Option.some v => Except.ok v
      | Option.none => Except.error (PyErr.keyError k)
  | PyVal.str _, _ => Except.error (PyErr.typeError "string indices must be integers")
  | PyVal.list _, _ => Except.error (PyErr.typeError "list indices must be integers")
  | _, _ => Except.error (PyErr.typeError "object is not subscriptable")

/-- Python `v[i]` for a nonnegative integer index on a list. -/
def pyIndex : PyVal → Nat → Except PyErr PyVal
  | PyVal.list xs, i =>
      match xs.get? i with
      | Option.some v => Except.ok v
      | Option.none => Except.error PyErr.indexError
  | _, _ => Except.error (PyErr.typeError "object is not subscriptable")

/-- Python `for x in v`: a dict yields its keys (as strings, in insertion
order), a list yields its elements; other values here are not iterable. -/
def pyIter : PyVal → Except PyErr (List PyVal)
  | PyVal.dict entries => Except.ok (entries.map (fun kv => PyVal.str kv.1))
  | PyVal.list xs => Except.ok xs
  | _ => Except.error (PyErr.typeError "object is not iterable")

/-- Python `v.upper()`: only strings have the method. -/
def pyUpper : PyVal → Except PyErr PyVal
  | PyVal.str s => Except.ok (PyVal.str (strUpper s))
  | _ => Except.error (PyErr.attributeError "object has no attribute upper")

/-- Python `v.get(k)` on a dict (default `None`); other values lack `.get`. -/
def pyGet : PyVal → String → Except PyErr PyVal
  | PyVal.dict entries, k => Except.ok ((List.lookup k entries).getD PyVal.none)
  | _, _ => Except.error (PyErr.attributeError "object has no attribute get")

/-- Python `str(x)` for an optional string: `None` prints as `"None"`. -/
def pyStr : Option String → String
  | Option.none => "None"
  | Option.some s => s

/-- Python `int(x)` on a number: truncation toward zero. -/
def pyInt (q : ℚ) : ℤ := q.num.tdiv q.den

/-- Floor of a rational, kept as an executable definition. -/
def qfloor (q : ℚ) : ℤ := q.num.fdiv q.den

/-- Round to the nearest integer, ties to even (the rounding used by
Python's fixed-point string formatting, floats modelled as exact rationals). -/
def rndHalfEven (q : ℚ) : ℤ :=
  let f := qfloor q
  let r := q - (f : ℚ)
  if r < 1/2 then f
  else if 1/2 < r then f + 1
  else if f % 2 = 0 then f else f + 1

/-- Left-pad a string with `'0'` up to length `n`. -/
def padZeros (n : Nat) (s : String) : String :=
  String.mk (List.replicate (n - s.length) '0') ++ s

/-- Fixed-point rendering of a nonnegative rational with 8 fractional
digits, as produced by Python's `"{0:.8f}".format`. -/
def format8Nonneg (q : ℚ) : String :=
  let n := (rndHalfEven (q * 100000000)).toNat
  toString (n / 100000000) ++ "." ++ padZeros 8 (toString (n % 100000000))

/-- Python `"{0:.8f}".format(q)` with the float modelled as an exact
rational. -/
def format8 (q : ℚ) : String :=
  if q < 0 then "-" ++ format8Nonneg (-q) else format8Nonneg q

/-! ### Equity trader (`robinhood/Trader.py`) -/

/-- The `Authorization` entry of `Trader.headers`: `Option.none` models the
key being absent from the dict, `Option.some v` models the key being present
and mapped to `v` (where `v = Option.none` is the Python value `None`). -/
structure Headers where
  authorization : Option (Option String)

/-- `Trader.__init__` (lines 28-41): the initial header dict carries no
`Authorization` key. -/
def initHeaders : Headers := ⟨Option.none⟩

/-- The header mutation of a successful `Trader.login` (line 97):
`self.headers['Authorization'] = 'Bearer ' + self.auth_token`. -/
def loginSet (_h : Headers) (auth_token : String) : Headers :=
  ⟨Option.some (Option.some ("Bearer " ++ auth_token))⟩

/-- The header mutation of `Trader.logout` (line 120):
`self.headers['Authorization'] = None` — the key stays present. -/
def logoutSet (_h : Headers) : Headers := ⟨Option.some Option.none⟩

/-- `Trader.is_logged_in` (lines 125-126): `"Authorization" in self.headers`
tests key presence only, not the value. -/
def is_logged_in (h : Headers) : Bool := h.authorization.isSome

/-- `Trader.instrument` (lines 157-167) applied to the parsed JSON of the
instruments endpoint: returns `json['results'][0]`. -/
def instrument (instResp : PyVal) : Except PyErr PyVal :=
  match pySubscript instResp "results" with
  | Except.error e => Except.error e
  | Except.ok rs => pyIndex rs 0

/-- The matching loop of `Trader._submit_order` (lines 433-436): for each
`result` of the iterated value, test `result['symbol'].upper() ==
symbol.upper()` and on the first match return `result['url']`. -/
def findInstrumentURL (symbol : String) : List PyVal → Except PyErr (Option PyVal)
  | [] => Except.ok Option.none
  | r :: rest =>
      match pySubscript r "symbol" with
      | Except.error e => Except.error e
      | Except.ok sv =>
          match pyUpper sv with
          | Except.error e => Except.error e
          | Except.ok (PyVal.str s) =>
              if s = strUpper symbol then
                match pySubscript r "url" with
                | Except.error e => Except.error e
                | Except.ok url => Except.ok (Option.some url)
              else findInstrumentURL symbol rest
          | Except.ok _ => Except.error (PyErr.typeError "comparison on non-string")

/-- Instrument resolution inside `Trader._submit_order` (lines 430-438):
`for result in self.instrument(symbol): if result['symbol'].upper() ==
symbol.upper(): instrument_URL = result['url']; break`, then a `ValueError`
when no match was found.  `instResp` is the parsed JSON answered by the
instruments endpoint. -/
def instrumentResolution (symbol : String) (instResp : PyVal) : Except PyErr PyVal :=
  match instrument instResp with
  | Except.error e => Except.error e
  | Except.ok first =>
      match pyIter first with
      | Except.error e => Except.error e
      | Except.ok items =>
          match findInstrumentURL symbol items with
          | Except.error e => Except.error e
          | Except.ok (Option.some url) => Except.ok url
          | Except.ok Option.none =>
              Except.error (PyErr.valueError
                ("instrument_URL could not be defined. Symbol " ++ symbol ++ " not found"))

/-- The optional arguments of `Trader._submit_order` other than `symbol`
(lines 388-396); Python floats are modelled as exact rationals. -/
structure OrderArgs where
  order_type : Option String := Option.none
  time_in_force : Option String := Option.none
  trigger : Option String := Option.none
  price : Option ℚ := Option.none
  stop_price : Option ℚ := Option.none
  quantity : Option ℚ := Option.none
  side : Option String := Option.none

/-- The `order_type` inference of `_submit_order` (lines 446-450): when
`order_type` and `price` are both `None`, infer `'market'` when
`stop_price` is `None` and `'limit'` otherwise. -/
def inferOrderType (order_type : Option String) (price stop_price : Option ℚ) :
    Option String :=
  if order_type = Option.none ∧ price = Option.none then
    if stop_price = Option.none then Option.some "market" else Option.some "limit"
  else order_type

/-- Whether an optional number is present and `≤ 0` (the `price <= 0` and
`stop_price <= 0` tests of lines 464 and 470). -/
def nonPosOpt : Option ℚ → Bool
  | Option.none => false
  | Option.some p => decide (p ≤ 0)

/-- The value stored under `'price'`: the float conversion of an explicit
price (line 484), or the quote's bid price when absent (line 486). -/
def optPriceVal (price : Option ℚ) (bid : PyVal) : PyVal :=
  match price with
  | Option.some p => PyVal.num p
  | Option.none => bid

/-- An optional rational as a `PyVal` (`None` when absent). -/
def optNum : Option ℚ → PyVal
  | Option.some p => PyVal.num p
  | Option.none => PyVal.none

/-- An optional string as a `PyVal` (`None` when absent). -/
def optStr : Option String → PyVal
  | Option.some s => PyVal.str s
  | Option.none => PyVal.none

/-- Whether a `PyVal` is Python's `None`. -/
def isNoneVal : PyVal → Bool
  | PyVal.none => true
  | _ => false

/-- The payload loop of `_submit_order` (lines 496-511): keep, in declared
order, exactly the fields whose value is not `None`. -/
def buildPayload (fields : List (String × PyVal)) : List (String × PyVal) :=
  fields.filter (fun kv => !isNoneVal kv.2)

/-- The normalized `order_type` of `_submit_order`: the inference of lines
446-450 followed by `str(order_type).lower()` of line 453. -/
def normOrderType (a : OrderArgs) : String :=
  strLower (pyStr (inferOrderType a.order_type a.price a.stop_price))

/-- `str(time_in_force).lower()` (line 454). -/
def normTif (a : OrderArgs) : String := strLower (pyStr a.time_in_force)

/-- `str(trigger).lower()` (line 455). -/
def normTrigger (a : OrderArgs) : String := strLower (pyStr a.trigger)

/-- `str(side).lower()` (line 456). -/
def normSide (a : OrderArgs) : String := strLower (pyStr a.side)

/-- The validation and payload-assembly segment of `Trader._submit_order`
(lines 443-511), after instrument resolution: `symbol` is the (non-`None`)
symbol argument, `bid` is `current_quote['bid_price']` (line 427), `acct` is
`self.get_account()['url']` (line 499) and `instr` the resolved instrument
URL.  Each check appears in source order with its source error message. -/
def validateAndBuild (symbol : String) (a : OrderArgs) (bid acct instr : PyVal) :
    Except PyErr (List (String × PyVal)) :=
  if a.side = Option.none then
    Except.error (PyErr.valueError "Order is neither buy nor sell in call to submit_order")
  else if normOrderType a ≠ "market" ∧ normOrderType a ≠ "limit" then
    Except.error (PyErr.valueError "Invalid order_type in call to submit_order")
  else if normOrderType a = "limit" ∧ a.price = Option.none then
    Except.error (PyErr.valueError "Limit order has no price in call to submit_order")
  else if normOrderType a = "limit" ∧ nonPosOpt a.price = true then
    Except.error (PyErr.valueError "Price must be positive number in call to submit_order")
  else if normTrigger a = "stop" ∧ a.stop_price = Option.none then
    Except.error (PyErr.valueError "Stop order has no stop_price in call to submit_order")
  else if normTrigger a = "stop" ∧ nonPosOpt a.stop_price = true then
    Except.error (PyErr.valueError "Stop_price must be positive number in call to submit_order")
  else if a.stop_price ≠ Option.none ∧ normTrigger a ≠ "stop" then
    Except.error (PyErr.valueError "Stop price set for non-stop order in call to submit_order")
  else if a.price = Option.none ∧ normOrderType a = "limit" then
    Except.error (PyErr.valueError "Limit order has no price in call to submit_order")
  else if a.price ≠ Option.none ∧ normOrderType a = "market" then
    Except.error (PyErr.valueError "Market order has price limit in call to submit_order")
  else if a.quantity = Option.none then
    Except.error (PyErr.valueError "No quantity specified in call to submit_order")
  else if pyInt (a.quantity.getD 0) ≤ 0 then
    Except.error (PyErr.valueError "Quantity must be positive number in call to submit_order")
  else
    Except.ok (buildPayload
      [("account", acct), ("instrument", instr),
       ("symbol", PyVal.str (strUpper symbol)), ("type", PyVal.str (normOrderType a)),
       ("time_in_force", PyVal.str (normTif a)), ("trigger", PyVal.str (normTrigger a)),
       ("price", optPriceVal a.price bid), ("stop_price", optNum a.stop_price),
       ("quantity", PyVal.int (pyInt (a.quantity.getD 0))), ("side", PyVal.str (normSide a))])

/-- `Trader._submit_order` (lines 388-517) end to end: the authentication
gate (line 423), the quote lookup for the bid-price fallback (lines 426-427),
the symbol presence check, instrument resolution (lines 430-438) and the
validation/payload segment.  `quoteResp`, `instResp` and `acct` are the
environment's responses; a `None` symbol crashes inside `Trader.quote`'s
`",".join` before the explicit check of line 431 can fire. -/
def submitOrder (hdrs : Headers) (quoteResp instResp acct : PyVal)
    (symbol : Option String) (a : OrderArgs) : Except PyErr (List (String × PyVal)) :=
  if is_logged_in hdrs then
    match symbol with
    | Option.none =>
        Except.error (PyErr.typeError "sequence item 0: expected str instance, NoneType found")
    | Option.some sym =>
        match pySubscript quoteResp "bid_price" with
        | Except.error e => Except.error e
        | Except.ok bid =>
            match instrumentResolution sym instResp with
            | Except.error e => Except.error e
            | Except.ok instrURL => validateAndBuild sym a bid acct instrURL
  else Except.error (PyErr.exc "Login required for caller")

/-- `Trader.cancel_order` (lines 519-568).  `fetch` models
`session.get(endpoints.orders() + order_id).json()` (its error side an
HTTPError) and `post` models `session.post(order['cancel'])`.  The source's
control flow is kept exactly: in the string branch a missing cancel link
falls through to the `elif not isinstance(order_id, str) or not
isinstance(order_id, dict)` arm (which is true for every input), while in
the dict branch a missing cancel link falls off the end of the function and
returns `None`. -/
def cancel_order (fetch : String → Except Unit PyVal) (post : PyVal → Except Unit PyVal) :
    PyVal → Except PyErr (Option PyVal)
  | PyVal.str oid =>
      (match fetch oid with
       | Except.error _ =>
           Except.error (PyErr.valueError ("Failed to get Order for ID: " ++ oid))
       | Except.ok order =>
           match pyGet order "cancel" with
           | Except.error e => Except.error e
           | Except.ok c =>
               if isNoneVal c then
                 Except.error (PyErr.valueError
                   "Cancelling orders requires a valid order_id string or open order dictionary")
               else
                 match post c with
                 | Except.ok res => Except.ok (Option.some res)
                 | Except.error _ =>
                     Except.error (PyErr.valueError ("Failed to cancel order ID: " ++ oid)))
  | PyVal.dict entries =>
      (match List.lookup "id" entries with
       | Option.none => Except.error (PyErr.keyError "id")
       | Option.some (PyVal.str oid) =>
           (match fetch oid with
            | Except.error _ =>
                Except.error (PyErr.valueError ("Failed to get Order for ID: " ++ oid))
            | Except.ok order =>
                match pyGet order "cancel" with
                | Except.error e => Except.error e
                | Except.ok c =>
                    if isNoneVal c then Except.ok Option.none
                    else
                      match post c with
                      | Except.ok res => Except.ok (Option.some res)
                      | Except.error _ =>
                          Except.error (PyErr.valueError ("Failed to cancel order ID: " ++ oid)))
       | Option.some _ =>
           Except.error (PyErr.typeError "can only concatenate str (not NoneType) to str"))
  | _ =>
      Except.error (PyErr.valueError
        "Cancelling orders requires a valid order_id string or open order dictionary")

/-! ### Crypto trader (`robinhood/crypto_trader.py`) -/

/-- Python truthiness of an optional number (`bool(x)`): absent and zero are
falsy. -/
def truthyOptQ : Option ℚ → Bool
  | Option.none => false
  | Option.some q => decide (q ≠ 0)

/-- Python truthiness of an optional string: absent and empty are falsy. -/
def truthyOptS : Option String → Bool
  | Option.none => false
  | Option.some s => decide (s ≠ "")

/-- Python truthiness of a `PyVal`. -/
def pyTruthy : PyVal → Bool
  | PyVal.none => false
  | PyVal.str s => decide (s ≠ "")
  | PyVal.num q => decide (q ≠ 0)
  | PyVal.int n => decide (n ≠ 0)
  | PyVal.list xs => !(xs.isEmpty)
  | PyVal.dict entries => !(entries.isEmpty)

/-- The payload comprehension of `CryptoTrader.place_order` (line 121):
`{k: v for k, v in payload.items() if v}` drops falsy values. -/
def filterTruthy (fields : List (String × PyVal)) : List (String × PyVal) :=
  fields.filter (fun kv => pyTruthy kv.2)

/-- Modelled from the spec: `Trader._fprice` is referenced by the crypto
composer (line 107) but absent from `src/`; spec §4.2 rule 6 says the price
is formatted to the instrument's configured decimal precision.  Modelled as
fixed-point decimal formatting to 8 places. -/
def fprice (q : ℚ) : String := format8 q

/-- The arguments of `CryptoTrader.place_order` (lines 90-96) other than
`symbol`. -/
structure CryptoArgs where
  price_quantity : Option ℚ := Option.none
  quantity : Option ℚ := Option.none
  price : Option ℚ := Option.none
  side : Option String := Option.none
  time_in_force : Option String := Option.none

/-- The price used by `place_order` after the default of line 103: the
explicit price when truthy, otherwise the live ask quote. -/
def cryptoResolvedPrice (price : Option ℚ) (ask : ℚ) : ℚ :=
  if truthyOptQ price then price.getD 0 else ask

/-- The order kind of `place_order` (line 99): `'limit' if price else
'market'`, decided on the *original* `price` argument, before the ask-price
default of line 103 runs. -/
def cryptoOrderKind (a : CryptoArgs) : String :=
  if truthyOptQ a.price then "limit" else "market"

/-- The `time_in_force` default of `place_order` (line 102). -/
def cryptoTif (a : CryptoArgs) : String :=
  if truthyOptS a.time_in_force then pyStr a.time_in_force else "gtc"

/-- The quantity composition of `place_order` (lines 104-105): when
`quantity` is falsy and `price_quantity` truthy, the quantity becomes
`"{0:.8f}".format(price_quantity / price)`. -/
def cryptoQuantityVal (a : CryptoArgs) (ask : ℚ) : PyVal :=
  if !truthyOptQ a.quantity && truthyOptQ a.price_quantity then
    PyVal.str (format8 ((a.price_quantity.getD 0) / cryptoResolvedPrice a.price ask))
  else optNum a.quantity

/-- `CryptoTrader.place_order` (lines 90-124).  `pairs` is the static
symbol-to-pair-id table (`crypto_endpoints.crypto_pairs`, absent from
`src/`, modelled from the spec as an exact-uppercase-key lookup table whose
missing keys raise `KeyError`); `ask` is `self.quote(symbol).ask`;
`account_id` is `self.account()['id']`; `ref_id` is the generated
`uuid.uuid4().hex`.  Order of operations follows the source: the xor
assertion (line 97), the order kind from the truthiness of the *original*
`price` (line 99), the pair lookup (line 100), the `time_in_force` and
`price` defaults (lines 102-103), the quantity composition with its
potential division by zero (lines 104-105), the price formatting (line 107)
and the falsy-dropping payload (lines 110-122). -/
def place_order (pairs : List (String × String)) (ask : ℚ) (account_id ref_id : String)
    (symbol : String) (a : CryptoArgs) : Except PyErr (List (String × PyVal)) :=
  if truthyOptQ a.quantity = truthyOptQ a.price_quantity then
    Except.error PyErr.assertionError
  else
    match List.lookup (strUpper symbol) pairs with
    | Option.none => Except.error (PyErr.keyError (strUpper symbol))
    | Option.some crypto_id =>
        if (!truthyOptQ a.quantity && truthyOptQ a.price_quantity)
            && decide (cryptoResolvedPrice a.price ask = 0) then
          Except.error PyErr.zeroDivisionError
        else
          Except.ok (filterTruthy
            [("type", PyVal.str (cryptoOrderKind a)), ("side", optStr a.side),
             ("quantity", cryptoQuantityVal a ask), ("account_id", PyVal.str account_id),
             ("currency_pair_id", PyVal.str crypto_id),
             ("price", PyVal.str (fprice (cryptoResolvedPrice a.price ask))),
             ("ref_id", PyVal.str ref_id), ("time_in_force", PyVal.str (cryptoTif a))])

/-! ### Theorems -/

/-- Success shape of the validation segment: every payload produced by
`validateAndBuild` is the declared field list filtered for non-`None`
values, and on success the limit/price, stop-price/trigger and quantity
checks have all passed. -/
theorem validateAndBuild_ok_eq (symbol : String) (a : OrderArgs) (bid acct instr : PyVal)
    (pl : List (String × PyVal))
    (h : validateAndBuild symbol a bid acct instr = Except.ok pl) :
    pl = buildPayload
        [("account", acct), ("instrument", instr),
         ("symbol", PyVal.str (strUpper symbol)),
         ("type", PyVal.str (normOrderType a)),
         ("time_in_force", PyVal.str (normTif a)),
         ("trigger", PyVal.str (normTrigger a)),
         ("price", optPriceVal a.price bid), ("stop_price", optNum a.stop_price),
         ("quantity", PyVal.int (pyInt (a.quantity.getD 0))),
         ("side", PyVal.str (normSide a))]
    ∧ (normOrderType a = "limit" → a.price ≠ Option.none)
    ∧ (a.stop_price ≠ Option.none → normTrigger a = "stop")
    ∧ a.quantity ≠ Option.none
    ∧ 0 < pyInt (a.quantity.getD 0) := by
  unfold validateAndBuild at h
  by_cases h1 : a.side = Option.none
  · rw [if_pos h1] at h; exact Except.noConfusion h
  rw [if_neg h1] at h
  by_cases h2 : normOrderType a ≠ "market" ∧ normOrderType a ≠ "limit"
  · rw [if_pos h2] at h; exact Except.noConfusion h
  rw [if_neg h2] at h
  by_cases h3 : normOrderType a = "limit" ∧ a.price = Option.none
  · rw [if_pos h3] at h; exact Except.noConfusion h
  rw [if_neg h3] at h
  by_cases h4 : normOrderType a = "limit" ∧ nonPosOpt a.price = true
  · rw [if_pos h4] at h; exact Except.noConfusion h
  rw [if_neg h4] at h
  by_cases h5 : normTrigger a = "stop" ∧ a.stop_price = Option.none
  · rw [if_pos h5] at h; exact Except.noConfusion h
  rw [if_neg h5] at h
  by_cases h6 : normTrigger a = "stop" ∧ nonPosOpt a.stop_price = true
  · rw [if_pos h6] at h; exact Except.noConfusion h
  rw [if_neg h6] at h
  by_cases h7 : a.stop_price ≠ Option.none ∧ normTrigger a ≠ "stop"
  · rw [if_pos h7] at h; exact Except.noConfusion h
  rw [if_neg h7] at h
  by_cases h8 : a.price = Option.none ∧ normOrderType a = "limit"
  · rw [if_pos h8] at h; exact Except.noConfusion h
  rw [if_neg h8] at h
  by_cases h9 : a.price ≠ Option.none ∧ normOrderType a = "market"
  · rw [if_pos h9] at h; exact Except.noConfusion h
  rw [if_neg h9] at h
  by_cases h10 : a.quantity = Option.none
  · rw [if_pos h10] at h; exact Except.noConfusion h
  rw [if_neg h10] at h
  by_cases h11 : pyInt (a.quantity.getD 0) ≤ 0
  · rw [if_pos h11] at h; exact Except.noConfusion h
  rw [if_neg h11] at h
  refine ⟨(Except.ok.inj h).symm, fun hl hp => h3 ⟨hl, hp⟩, fun hsp => ?_, h10, by omega⟩
  by_contra ht; exact h7 ⟨hsp, ht⟩

/-- C1 (code bug): the claim says instrument resolution picks, among the
instruments matching the symbol, the first whose symbol matches
case-insensitively, and raises the not-found error when none matches.  The
code cannot do this: `Trader.instrument` returns `json['results'][0]` (a
single dict), and `_submit_order` iterates over that dict — i.e. over its
string keys — so `result['symbol']` subscripts a string and raises
`TypeError` whenever any result exists, and an empty result list raises
`IndexError` inside `instrument` instead of the not-found `ValueError`. -/
theorem instrument_resolution_crashes :
    instrumentResolution "AAPL"
        (PyVal.dict [("results", PyVal.list
          [PyVal.dict [("symbol", PyVal.str "AAPL"),
                       ("url", PyVal.str "https://api.robinhood.com/instruments/450dfc6d/")]])])
      = Except.error (PyErr.typeError "string indices must be integers")
  ∧ instrumentResolution "AAPL" (PyVal.dict [("results", PyVal.list [])])
      = Except.error PyErr.indexError :=
  ⟨rfl, rfl⟩

/-- C5 (code bug): the authentication gate is checked first and a
never-logged-in caller is rejected, but after `logout()` the claim fails:
`logout` sets `headers['Authorization'] = None` while `is_logged_in` only
tests key *presence*, so a logged-out caller still passes the gate — the
submission proceeds into the quote/instrument stage (here up to the
instrument-resolution `TypeError`) instead of failing with the
login-required error. -/
theorem logout_leaves_caller_logged_in :
    is_logged_in initHeaders = false
  ∧ submitOrder initHeaders (PyVal.dict [("bid_price", PyVal.num 100)])
      (PyVal.dict [("results", PyVal.list
        [PyVal.dict [("symbol", PyVal.str "AAPL"), ("url", PyVal.str "u")]])])
      (PyVal.str "acctUrl") (Option.some "AAPL")
      { quantity := Option.some 10, side := Option.some "buy" }
      = Except.error (PyErr.exc "Login required for caller")
  ∧ is_logged_in (logoutSet (loginSet initHeaders "tok")) = true
  ∧ submitOrder (logoutSet (loginSet initHeaders "tok"))
      (PyVal.dict [("bid_price", PyVal.num 100)])
      (PyVal.dict [("results", PyVal.list
        [PyVal.dict [("symbol", PyVal.str "AAPL"), ("url", PyVal.str "u")]])])
      (PyVal.str "acctUrl") (Option.some "AAPL")
      { quantity := Option.some 10, side := Option.some "buy" }
      = Except.error (PyErr.typeError "string indices must be integers") :=
  ⟨rfl, rfl, rfl, rfl⟩

/-- Every failure of the validation segment is a `ValueError` (the model of
an `InvalidArgument` rejection). -/
theorem validateAndBuild_error_msg (symbol : String) (a : OrderArgs)
    (bid acct instr : PyVal) (e : PyErr)
    (h : validateAndBuild symbol a bid acct instr = Except.error e) :
    ∃ msg, e = PyErr.valueError msg := by
  unfold validateAndBuild at h
  by_cases h1 : a.side = Option.none
  · rw [if_pos h1] at h; exact ⟨_, (Except.error.inj h).symm⟩
  rw [if_neg h1] at h
  by_cases h2 : normOrderType a ≠ "market" ∧ normOrderType a ≠ "limit"
  · rw [if_pos h2] at h; exact ⟨_, (Except.error.inj h).symm⟩
  rw [if_neg h2] at h
  by_cases h3 : normOrderType a = "limit" ∧ a.price = Option.none
  · rw [if_pos h3] at h; exact ⟨_, (Except.error.inj h).symm⟩
  rw [if_neg h3] at h
  by_cases h4 : normOrderType a = "limit" ∧ nonPosOpt a.price = true
  · rw [if_pos h4] at h; exact ⟨_, (Except.error.inj h).symm⟩
  rw [if_neg h4] at h
  by_cases h5 : normTrigger a = "stop" ∧ a.stop_price = Option.none
  · rw [if_pos h5] at h; exact ⟨_, (Except.error.inj h).symm⟩
  rw [if_neg h5] at h
  by_cases h6 : normTrigger a = "stop" ∧ nonPosOpt a.stop_price = true
  · rw [if_pos h6] at h; exact ⟨_, (Except.error.inj h).symm⟩
  rw [if_neg h6] at h
  by_cases h7 : a.stop_price ≠ Option.none ∧ normTrigger a ≠ "stop"
  · rw [if_pos h7] at h; exact ⟨_, (Except.error.inj h).symm⟩
  rw [if_neg h7] at h
  by_cases h8 : a.price = Option.none ∧ normOrderType a = "limit"
  · rw [if_pos h8] at h; exact ⟨_, (Except.error.inj h).symm⟩
  rw [if_neg h8] at h
  by_cases h9 : a.price ≠ Option.none ∧ normOrderType a = "market"
  · rw [if_pos h9] at h; exact ⟨_, (Except.error.inj h).symm⟩
  rw [if_neg h9] at h
  by_cases h10 : a.quantity = Option.none
  · rw [if_pos h10] at h; exact ⟨_, (Except.error.inj h).symm⟩
  rw [if_neg h10] at h
  by_cases h11 : pyInt (a.quantity.getD 0) ≤ 0
  · rw [if_pos h11] at h; exact ⟨_, (Except.error.inj h).symm⟩
  rw [if_neg h11] at h
  exact Except.noConfusion h

/-- C2: when `order_type` and `price` are both unset, the validator infers
MARKET if `stop_price` is also unset — a successful submission then emits
payload type `"market"` — and LIMIT if `stop_price` is set, in which case
the inferred limit order is rejected for lack of a price (showing the LIMIT
branch was taken). -/
theorem order_type_inference (symbol : String) (a : OrderArgs) (bid acct instr : PyVal)
    (h1 : a.order_type = Option.none) (h2 : a.price = Option.none) :
    (a.stop_price = Option.none →
      inferOrderType a.order_type a.price a.stop_price = Option.some "market"
      ∧ ∀ pl, validateAndBuild symbol a bid acct instr = Except.ok pl →
          ("type", PyVal.str "market") ∈ pl)
  ∧ (∀ sp : ℚ, a.stop_price = Option.some sp →
      inferOrderType a.order_type a.price a.stop_price = Option.some "limit"
      ∧ (a.side ≠ Option.none →
          validateAndBuild symbol a bid acct instr
            = Except.error (PyErr.valueError "Limit order has no price in call to submit_order"))) := by
  constructor
  · intro hsp
    have hinf : inferOrderType a.order_type a.price a.stop_price = Option.some "market" := by
      unfold inferOrderType
      rw [if_pos ⟨h1, h2⟩, if_pos hsp]
    refine ⟨hinf, fun pl hpl => ?_⟩
    obtain ⟨hshape, -, -, -, -⟩ := validateAndBuild_ok_eq symbol a bid acct instr pl hpl
    have hot : normOrderType a = "market" := by
      unfold normOrderType
      rw [hinf]
      decide
    rw [hshape, hot]
    exact List.mem_filter.mpr ⟨by simp, rfl⟩
  · intro sp hsp
    have hinf : inferOrderType a.order_type a.price a.stop_price = Option.some "limit" := by
      unfold inferOrderType
      rw [if_pos ⟨h1, h2⟩, if_neg (by simp [hsp])]
    have hot : normOrderType a = "limit" := by
      unfold normOrderType
      rw [hinf]
      decide
    refine ⟨hinf, fun hside => ?_⟩
    unfold validateAndBuild
    rw [if_neg hside, if_neg (by rw [hot]; simp), if_pos ⟨hot, h2⟩]

/-- C3: a payload emitted by the validation segment never has `price`
absent while its type is `"limit"`, and never contains a `stop_price` while
its trigger is not `"stop"` (any `stop_price` entry forces trigger
`"stop"`); the offending combinations were rejected before emission. -/
theorem payload_price_stop_invariant (symbol : String) (a : OrderArgs)
    (bid acct instr : PyVal) (pl : List (String × PyVal))
    (h : validateAndBuild symbol a bid acct instr = Except.ok pl) :
    (("type", PyVal.str "limit") ∈ pl → ∃ p : ℚ, ("price", PyVal.num p) ∈ pl)
  ∧ (∀ sp : ℚ, ("stop_price", PyVal.num sp) ∈ pl → ("trigger", PyVal.str "stop") ∈ pl) := by
  obtain ⟨hshape, hlimit, hstop, -, -⟩ :=
    validateAndBuild_ok_eq symbol a bid acct instr pl h
  subst hshape
  constructor
  · intro htype
    rcases List.mem_filter.mp htype with ⟨hmem, -⟩
    simp only [List.mem_cons, List.not_mem_nil, or_false, Prod.mk.injEq] at hmem
    have hot : normOrderType a = "limit" := by
      rcases hmem with ⟨hk, -⟩ | ⟨hk, -⟩ | ⟨hk, -⟩ | ⟨-, hv⟩ | ⟨hk, -⟩ | ⟨hk, -⟩ |
        ⟨hk, -⟩ | ⟨hk, -⟩ | ⟨hk, -⟩ | ⟨hk, -⟩
      all_goals first
        | exact (PyVal.str.inj hv).symm
        | exact absurd hk (by decide)
    obtain ⟨p, hp⟩ := Option.ne_none_iff_exists'.mp (hlimit hot)
    refine ⟨p, List.mem_filter.mpr ⟨?_, rfl⟩⟩
    have : optPriceVal a.price bid = PyVal.num p := by rw [hp]; rfl
    rw [← this]
    simp
  · intro sp hsp
    rcases List.mem_filter.mp hsp with ⟨hmem, -⟩
    simp only [List.mem_cons, List.not_mem_nil, or_false, Prod.mk.injEq] at hmem
    have hspv : optNum a.stop_price = PyVal.num sp := by
      rcases hmem with ⟨hk, -⟩ | ⟨hk, -⟩ | ⟨hk, -⟩ | ⟨hk, -⟩ | ⟨hk, -⟩ | ⟨hk, -⟩ |
        ⟨hk, -⟩ | ⟨-, hv⟩ | ⟨hk, -⟩ | ⟨hk, -⟩
      all_goals first
        | exact hv.symm
        | exact absurd hk (by decide)
    have hsome : a.stop_price = Option.some sp := by
      cases hx : a.stop_price with
      | none => rw [hx] at hspv; exact absurd hspv (by simp [optNum])
      | some q => rw [hx] at hspv; simp only [optNum, PyVal.num.injEq] at hspv; rw [hspv]
    have htrig : normTrigger a = "stop" := hstop (by rw [hsome]; exact Option.some_ne_none sp)
    rw [← htrig]
    exact List.mem_filter.mpr ⟨by simp, rfl⟩

/-- C10: the normalization of lines 452-456 stringifies an unset `trigger`
or `time_in_force` into the literal string `"none"`, which is not `None`
and is therefore kept by the payload filter; the emitted payload always
contains `type`, `time_in_force`, `trigger` and `side` entries. -/
theorem payload_none_normalization (symbol : String) (a : OrderArgs)
    (bid acct instr : PyVal) (pl : List (String × PyVal))
    (h : validateAndBuild symbol a bid acct instr = Except.ok pl) :
    (a.trigger = Option.none → ("trigger", PyVal.str "none") ∈ pl)
  ∧ (a.time_in_force = Option.none → ("time_in_force", PyVal.str "none") ∈ pl)
  ∧ (∃ v, ("type", v) ∈ pl) ∧ (∃ v, ("time_in_force", v) ∈ pl)
  ∧ (∃ v, ("trigger", v) ∈ pl) ∧ (∃ v, ("side", v) ∈ pl) := by
  obtain ⟨hshape, -, -, -, -⟩ := validateAndBuild_ok_eq symbol a bid acct instr pl h
  subst hshape
  refine ⟨fun ht => ?_, fun htf => ?_,
    ⟨PyVal.str (normOrderType a), List.mem_filter.mpr ⟨by simp, rfl⟩⟩,
    ⟨PyVal.str (normTif a), List.mem_filter.mpr ⟨by simp, rfl⟩⟩,
    ⟨PyVal.str (normTrigger a), List.mem_filter.mpr ⟨by simp, rfl⟩⟩,
    ⟨PyVal.str (normSide a), List.mem_filter.mpr ⟨by simp, rfl⟩⟩⟩
  · have : normTrigger a = "none" := by unfold normTrigger; rw [ht]; decide
    rw [← this]
    exact List.mem_filter.mpr ⟨by simp, rfl⟩
  · have : normTif a = "none" := by unfold normTif; rw [htf]; decide
    rw [← this]
    exact List.mem_filter.mpr ⟨by simp, rfl⟩

/-- C4 (amended): a submission whose `quantity` is absent, or whose
truncation to an integer via `int(quantity)` is not strictly positive, is
always rejected with a `ValueError`; a fractional quantity whose truncation
is positive is truncated and accepted, not rejected. -/
theorem quantity_guard (symbol : String) (a : OrderArgs) (bid acct instr : PyVal)
    (h : a.quantity = Option.none ∨ ∃ q : ℚ, a.quantity = Option.some q ∧ pyInt q ≤ 0) :
    ∃ msg, validateAndBuild symbol a bid acct instr = Except.error (PyErr.valueError msg) := by
  cases hr : validateAndBuild symbol a bid acct instr with
  | error e =>
      obtain ⟨msg, rfl⟩ := validateAndBuild_error_msg symbol a bid acct instr e hr
      exact ⟨msg, rfl⟩
  | ok pl =>
      exfalso
      obtain ⟨-, -, -, h10, h11⟩ := validateAndBuild_ok_eq symbol a bid acct instr pl hr
      rcases h with hnone | ⟨q, hq, hle⟩
      · exact h10 hnone
      · rw [hq] at h11
        simp only [Option.getD_some] at h11
        omega

/-- C6 (amended): `cancel_order` fetches the order and, when a cancel link
is present, posts to it and returns the result; but when the fetched order
has no cancel link, a string-identifier call raises the generic
invalid-input `ValueError` (falling through the broken `isinstance` chain)
while a record call returns `None`, and the dedicated not-cancellable
branch is unreachable; an input that is neither a string nor a dict raises
the invalid-input `ValueError`. -/
theorem cancel_order_actual (fetch : String → Except Unit PyVal)
    (post : PyVal → Except Unit PyVal) (oid : String) (entries : List (String × PyVal))
    (hf : fetch oid = Except.ok (PyVal.dict entries)) :
    (∀ c, List.lookup "cancel" entries = Option.some c → isNoneVal c = false →
        cancel_order fetch post (PyVal.str oid)
          = (match post c with
             | Except.ok r => Except.ok (Option.some r)
             | Except.error _ =>
                 Except.error (PyErr.valueError ("Failed to cancel order ID: " ++ oid))))
  ∧ ((List.lookup "cancel" entries).getD PyVal.none = PyVal.none →
        cancel_order fetch post (PyVal.str oid)
          = Except.error (PyErr.valueError
              "Cancelling orders requires a valid order_id string or open order dictionary"))
  ∧ ((List.lookup "cancel" entries).getD PyVal.none = PyVal.none →
        cancel_order fetch post (PyVal.dict [("id", PyVal.str oid)]) = Except.ok Option.none)
  ∧ (∀ n : ℚ, cancel_order fetch post (PyVal.num n)
        = Except.error (PyErr.valueError
            "Cancelling orders requires a valid order_id string or open order dictionary")) := by
  refine ⟨fun c hc hnc => ?_, fun hd => ?_, fun hd => ?_, fun n => rfl⟩
  · simp [cancel_order, hf, pyGet, hc, hnc]
  · simp [cancel_order, hf, pyGet, hd, isNoneVal]
  · simp [cancel_order, hf, pyGet, hd, isNoneVal]

/-- C7 (amended): the crypto precondition is an exclusive-or on Python
*truthiness*: supplying both `quantity` and `price_quantity` with nonzero
values fails the assertion, and supplying neither (absent or zero) fails
the assertion; a supplied zero counts as unsupplied. -/
theorem crypto_xor_truthiness (pairs : List (String × String)) (ask : ℚ)
    (account_id ref_id symbol : String) (a : CryptoArgs) :
    ((truthyOptQ a.quantity = true ∧ truthyOptQ a.price_quantity = true) →
        place_order pairs ask account_id ref_id symbol a = Except.error PyErr.assertionError)
  ∧ ((truthyOptQ a.quantity = false ∧ truthyOptQ a.price_quantity = false) →
        place_order pairs ask account_id ref_id symbol a = Except.error PyErr.assertionError) := by
  constructor <;> rintro ⟨hq, hp⟩ <;> unfold place_order <;> rw [hq, hp] <;> try rfl

/-- Success shape of the crypto composer: every payload produced by
`place_order` is the declared field list filtered for truthy values, and on
success the truthiness xor held and the pair lookup succeeded. -/
theorem place_order_ok_eq (pairs : List (String × String)) (ask : ℚ)
    (account_id ref_id symbol : String) (a : CryptoArgs) (pl : List (String × PyVal))
    (h : place_order pairs ask account_id ref_id symbol a = Except.ok pl) :
    truthyOptQ a.quantity ≠ truthyOptQ a.price_quantity
  ∧ ∃ crypto_id, List.lookup (strUpper symbol) pairs = Option.some crypto_id
      ∧ pl = filterTruthy
          [("type", PyVal.str (cryptoOrderKind a)), ("side", optStr a.side),
           ("quantity", cryptoQuantityVal a ask), ("account_id", PyVal.str account_id),
           ("currency_pair_id", PyVal.str crypto_id),
           ("price", PyVal.str (fprice (cryptoResolvedPrice a.price ask))),
           ("ref_id", PyVal.str ref_id), ("time_in_force", PyVal.str (cryptoTif a))] := by
  unfold place_order at h
  by_cases h1 : truthyOptQ a.quantity = truthyOptQ a.price_quantity
  · rw [if_pos h1] at h; exact Except.noConfusion h
  rw [if_neg h1] at h
  cases hlk : List.lookup (strUpper symbol) pairs with
  | none => rw [hlk] at h; exact Except.noConfusion h
  | some crypto_id =>
      rw [hlk] at h
      simp only [] at h
      by_cases h2 : ((!truthyOptQ a.quantity && truthyOptQ a.price_quantity)
          && decide (cryptoResolvedPrice a.price ask = 0)) = true
      · rw [if_pos h2] at h; exact Except.noConfusion h
      · rw [if_neg h2] at h
        exact ⟨h1, crypto_id, rfl, (Except.ok.inj h).symm⟩

/-- The 8-decimal formatting never yields the empty string (so a composed
quantity or formatted price is always truthy and survives the payload
filter). -/
theorem format8_ne_empty (q : ℚ) : format8 q ≠ "" := by
  have h1 : ∀ r : ℚ, format8Nonneg r ≠ "" := by
    intro r hcon
    have hl := congrArg String.length hcon
    simp only [format8Nonneg, String.length_append] at hl
    have hdot : (".".length) = 1 := rfl
    have hempty : ("".length) = 0 := rfl
    omega
  unfold format8
  split_ifs
  · intro hcon
    have hl := congrArg String.length hcon
    rw [String.length_append] at hl
    have hdash : ("-".length) = 1 := rfl
    have hempty : ("".length) = 0 := rfl
    omega
  · exact h1 q

/-- C8: when `quantity` is unset and `price_quantity` set, the composed
payload quantity is `price_quantity` divided by the resolved price,
formatted to 8 decimal places as a string. -/
theorem crypto_quantity_from_notional (pairs : List (String × String)) (ask : ℚ)
    (account_id ref_id symbol : String) (a : CryptoArgs) (pq : ℚ)
    (pl : List (String × PyVal))
    (hq : a.quantity = Option.none) (hpq : a.price_quantity = Option.some pq)
    (h : place_order pairs ask account_id ref_id symbol a = Except.ok pl) :
    ("quantity", PyVal.str (format8 (pq / cryptoResolvedPrice a.price ask))) ∈ pl := by
  obtain ⟨hxor, crypto_id, -, hpl⟩ :=
    place_order_ok_eq pairs ask account_id ref_id symbol a pl h
  have hqf : truthyOptQ a.quantity = false := by rw [hq]; rfl
  have hpqt : truthyOptQ a.price_quantity = true := by
    rw [hqf] at hxor
    cases hx : truthyOptQ a.price_quantity
    · rw [hx] at hxor; exact absurd rfl hxor
    · rfl
  have hqv : cryptoQuantityVal a ask
      = PyVal.str (format8 (pq / cryptoResolvedPrice a.price ask)) := by
    unfold cryptoQuantityVal
    rw [hqf, hpqt, hpq]
    simp
  rw [hpl, ← hqv]
  refine List.mem_filter.mpr ⟨by simp, ?_⟩
  rw [hqv]
  simp only [pyTruthy, decide_eq_true_eq]
  exact format8_ne_empty _

/-- C9 (amended): when `price` is unset the composed order is a market
order, and the live ask is used both for the quantity composition and as
the order price: the emitted market payload carries the formatted ask as
its `price` field rather than omitting it. -/
theorem crypto_market_price_echoed (pairs : List (String × String)) (ask : ℚ)
    (account_id ref_id symbol : String) (a : CryptoArgs) (pl : List (String × PyVal))
    (hp : a.price = Option.none)
    (h : place_order pairs ask account_id ref_id symbol a = Except.ok pl) :
    ("type", PyVal.str "market") ∈ pl ∧ ("price", PyVal.str (fprice ask)) ∈ pl := by
  obtain ⟨-, crypto_id, -, hpl⟩ :=
    place_order_ok_eq pairs ask account_id ref_id symbol a pl h
  have hres : cryptoResolvedPrice a.price ask = ask := by
    unfold cryptoResolvedPrice
    rw [hp]
    rfl
  have hkind : cryptoOrderKind a = "market" := by
    unfold cryptoOrderKind
    rw [hp]
    rfl
  rw [hpl, hres, hkind]
  constructor
  · exact List.mem_filter.mpr ⟨by simp, by decide⟩
  · refine List.mem_filter.mpr ⟨by simp, ?_⟩
    simp only [pyTruthy, decide_eq_true_eq, fprice]
    exact format8_ne_empty _


section ConcreteEvaluations

attribute [local semireducible] Rat.mul Rat.add Rat.sub Rat.inv Rat.ofScientific

/-- Witness for C2: a market-inferred submission evaluated end to end. -/
theorem order_type_inference_witness :
    inferOrderType Option.none Option.none Option.none = Option.some "market"
  ∧ ("type", PyVal.str "market") ∈
      ([("account", PyVal.str "acctUrl"), ("instrument", PyVal.str "instrUrl"),
       ("symbol", PyVal.str "AAPL"), ("type", PyVal.str "market"),
       ("time_in_force", PyVal.str "none"), ("trigger", PyVal.str "none"),
       ("price", PyVal.num 100), ("quantity", PyVal.int 10), ("side", PyVal.str "buy")] : List (String × PyVal)) := by
  have h := (order_type_inference "AAPL"
    { quantity := Option.some 10, side := Option.some "buy" }
    (PyVal.num 100) (PyVal.str "acctUrl") (PyVal.str "instrUrl") rfl rfl).1 rfl
  exact ⟨h.1, h.2 _ (by rfl)⟩

/-- Witness for C3: a stop-limit submission evaluated end to end carries
both a price and a stop trigger. -/
theorem payload_price_stop_invariant_witness :
    (∃ p : ℚ, ("price", PyVal.num p) ∈
      ([("account", PyVal.str "acctUrl"), ("instrument", PyVal.str "instrUrl"),
       ("symbol", PyVal.str "AAPL"), ("type", PyVal.str "limit"),
       ("time_in_force", PyVal.str "none"), ("trigger", PyVal.str "stop"),
       ("price", PyVal.num 150), ("stop_price", PyVal.num 140),
       ("quantity", PyVal.int 5), ("side", PyVal.str "sell")] : List (String × PyVal)))
  ∧ ("trigger", PyVal.str "stop") ∈
      ([("account", PyVal.str "acctUrl"), ("instrument", PyVal.str "instrUrl"),
       ("symbol", PyVal.str "AAPL"), ("type", PyVal.str "limit"),
       ("time_in_force", PyVal.str "none"), ("trigger", PyVal.str "stop"),
       ("price", PyVal.num 150), ("stop_price", PyVal.num 140),
       ("quantity", PyVal.int 5), ("side", PyVal.str "sell")] : List (String × PyVal)) := by
  have h := payload_price_stop_invariant "AAPL"
    { order_type := Option.some "limit", trigger := Option.some "stop",
      price := Option.some 150, stop_price := Option.some 140,
      quantity := Option.some 5, side := Option.some "sell" }
    (PyVal.num 100) (PyVal.str "acctUrl") (PyVal.str "instrUrl")
    [("account", PyVal.str "acctUrl"), ("instrument", PyVal.str "instrUrl"),
       ("symbol", PyVal.str "AAPL"), ("type", PyVal.str "limit"),
       ("time_in_force", PyVal.str "none"), ("trigger", PyVal.str "stop"),
       ("price", PyVal.num 150), ("stop_price", PyVal.num 140),
       ("quantity", PyVal.int 5), ("side", PyVal.str "sell")] (by rfl)
  exact ⟨h.1 (by simp), h.2 140 (by simp)⟩

/-- Witness for C10: a submission with `trigger` and `time_in_force` unset
emits the literal string `"none"` for both fields. -/
theorem payload_none_normalization_witness :
    ("trigger", PyVal.str "none") ∈
      ([("account", PyVal.str "acctUrl"), ("instrument", PyVal.str "instrUrl"),
       ("symbol", PyVal.str "AAPL"), ("type", PyVal.str "market"),
       ("time_in_force", PyVal.str "none"), ("trigger", PyVal.str "none"),
       ("price", PyVal.num 100), ("quantity", PyVal.int 10), ("side", PyVal.str "buy")] : List (String × PyVal))
  ∧ ("time_in_force", PyVal.str "none") ∈
      ([("account", PyVal.str "acctUrl"), ("instrument", PyVal.str "instrUrl"),
       ("symbol", PyVal.str "AAPL"), ("type", PyVal.str "market"),
       ("time_in_force", PyVal.str "none"), ("trigger", PyVal.str "none"),
       ("price", PyVal.num 100), ("quantity", PyVal.int 10), ("side", PyVal.str "buy")] : List (String × PyVal)) := by
  have h := payload_none_normalization "AAPL"
    { quantity := Option.some 10, side := Option.some "buy" }
    (PyVal.num 100) (PyVal.str "acctUrl") (PyVal.str "instrUrl")
    [("account", PyVal.str "acctUrl"), ("instrument", PyVal.str "instrUrl"),
       ("symbol", PyVal.str "AAPL"), ("type", PyVal.str "market"),
       ("time_in_force", PyVal.str "none"), ("trigger", PyVal.str "none"),
       ("price", PyVal.num 100), ("quantity", PyVal.int 10), ("side", PyVal.str "buy")] (by rfl)
  exact ⟨h.1 rfl, h.2.1 rfl⟩

/-- Counterexample for C4: `quantity = 3/2` is positive but not an
integer; the claim says such a submission fails with `InvalidArgument`,
yet the validator truncates it via `int(quantity)` and happily emits a
payload with quantity `1`. -/
theorem fractional_quantity_accepted :
    (0 < mkRat 3 2 ∧ (mkRat 3 2).den ≠ 1)
  ∧ validateAndBuild "AAPL"
      { quantity := Option.some (mkRat 3 2), side := Option.some "buy" }
      (PyVal.num 100) (PyVal.str "acctUrl") (PyVal.str "instrUrl")
    = Except.ok
      [("account", PyVal.str "acctUrl"), ("instrument", PyVal.str "instrUrl"),
       ("symbol", PyVal.str "AAPL"), ("type", PyVal.str "market"),
       ("time_in_force", PyVal.str "none"), ("trigger", PyVal.str "none"),
       ("price", PyVal.num 100), ("quantity", PyVal.int 1), ("side", PyVal.str "buy")] :=
  ⟨⟨by decide, by decide⟩, by rfl⟩

/-- Witness for the amended C4: a zero quantity is rejected. -/
theorem quantity_guard_witness :
    ∃ msg, validateAndBuild "AAPL"
      { quantity := Option.some 0, side := Option.some "buy" }
      (PyVal.num 100) (PyVal.str "acctUrl") (PyVal.str "instrUrl")
      = Except.error (PyErr.valueError msg) :=
  quantity_guard "AAPL" { quantity := Option.some 0, side := Option.some "buy" }
    (PyVal.num 100) (PyVal.str "acctUrl") (PyVal.str "instrUrl")
    (Or.inr ⟨0, rfl, by decide⟩)

/-- Counterexample for C6: for a fetched order without a cancel link, a
string-identifier call raises the invalid-input error (not a
not-cancellable error) and a record call returns `None` (no error at
all). -/
theorem cancel_missing_link_behavior :
    cancel_order
        (fun _ => Except.ok (PyVal.dict [("id", PyVal.str "42"), ("state", PyVal.str "queued")]))
        (fun _ => Except.ok PyVal.none) (PyVal.str "42")
      = Except.error (PyErr.valueError
          "Cancelling orders requires a valid order_id string or open order dictionary")
  ∧ cancel_order
        (fun _ => Except.ok (PyVal.dict [("id", PyVal.str "42"), ("state", PyVal.str "queued")]))
        (fun _ => Except.ok PyVal.none) (PyVal.dict [("id", PyVal.str "42")])
      = Except.ok Option.none :=
  ⟨rfl, rfl⟩

/-- Witness for the amended C6: an order with a cancel link is cancelled
and the post result returned. -/
theorem cancel_order_actual_witness :
    cancel_order
        (fun _ => Except.ok (PyVal.dict [("id", PyVal.str "42"), ("cancel", PyVal.str "cu")]))
        (fun _ => Except.ok (PyVal.str "done")) (PyVal.str "42")
      = Except.ok (Option.some (PyVal.str "done")) := by
  have h := (cancel_order_actual
      (fun _ => Except.ok (PyVal.dict [("id", PyVal.str "42"), ("cancel", PyVal.str "cu")]))
      (fun _ => Except.ok (PyVal.str "done")) "42"
      [("id", PyVal.str "42"), ("cancel", PyVal.str "cu")] rfl).1
      (PyVal.str "cu") (by rfl) rfl
  exact h

/-- Counterexample for C7: supplying both `quantity = 5` and
`price_quantity = 0.0` passes the precondition (zero is falsy) and the
order is composed, contradicting the claim that supplying both always
fails. -/
theorem crypto_both_supplied_passes :
    place_order [("BTC", "pairid")] 50000 "acc" "ref" "BTC"
      { quantity := Option.some 5, price_quantity := Option.some 0,
        price := Option.some 10, side := Option.some "buy" }
      = Except.ok
        [("type", PyVal.str "limit"), ("side", PyVal.str "buy"),
         ("quantity", PyVal.num 5), ("account_id", PyVal.str "acc"),
         ("currency_pair_id", PyVal.str "pairid"), ("price", PyVal.str "10.00000000"),
         ("ref_id", PyVal.str "ref"), ("time_in_force", PyVal.str "gtc")] := by rfl

/-- Witness for the amended C7: both fields supplied with nonzero values
fail the assertion. -/
theorem crypto_xor_truthiness_witness :
    place_order [("BTC", "pairid")] 50000 "acc" "ref" "BTC"
      { quantity := Option.some 5, price_quantity := Option.some 100 }
      = Except.error PyErr.assertionError :=
  (crypto_xor_truthiness [("BTC", "pairid")] 50000 "acc" "ref" "BTC"
    { quantity := Option.some 5, price_quantity := Option.some 100 }).1
    ⟨by decide, by decide⟩

/-- Witness for C8: `place(symbol="BTC", side="buy", price_quantity=100)`
with ask 50000 composes quantity `"0.00200000"`. -/
theorem crypto_quantity_from_notional_witness :
    ("quantity", PyVal.str "0.00200000") ∈
      ([("type", PyVal.str "market"), ("side", PyVal.str "buy"),
       ("quantity", PyVal.str "0.00200000"), ("account_id", PyVal.str "acc"),
       ("currency_pair_id", PyVal.str "pairid"), ("price", PyVal.str "50000.00000000"),
       ("ref_id", PyVal.str "ref"), ("time_in_force", PyVal.str "gtc")] : List (String × PyVal)) := by
  have h := crypto_quantity_from_notional [("BTC", "pairid")] 50000 "acc" "ref" "BTC"
    { price_quantity := Option.some 100, side := Option.some "buy" } 100
    [("type", PyVal.str "market"), ("side", PyVal.str "buy"),
       ("quantity", PyVal.str "0.00200000"), ("account_id", PyVal.str "acc"),
       ("currency_pair_id", PyVal.str "pairid"), ("price", PyVal.str "50000.00000000"),
       ("ref_id", PyVal.str "ref"), ("time_in_force", PyVal.str "gtc")] rfl rfl (by rfl)
  exact h

/-- Counterexample for C9: the market order composed from a notional
amount carries the formatted live ask as its `price` field — the payload
does not omit `price` as the claim states. -/
theorem crypto_market_payload_carries_price :
    place_order [("BTC", "pairid")] 50000 "acc" "ref" "BTC"
      { price_quantity := Option.some 100, side := Option.some "buy" }
      = Except.ok
        ([("type", PyVal.str "market"), ("side", PyVal.str "buy"),
       ("quantity", PyVal.str "0.00200000"), ("account_id", PyVal.str "acc"),
       ("currency_pair_id", PyVal.str "pairid"), ("price", PyVal.str "50000.00000000"),
       ("ref_id", PyVal.str "ref"), ("time_in_force", PyVal.str "gtc")] : List (String × PyVal))
  ∧ ("price", PyVal.str "50000.00000000") ∈
      ([("type", PyVal.str "market"), ("side", PyVal.str "buy"),
       ("quantity", PyVal.str "0.00200000"), ("account_id", PyVal.str "acc"),
       ("currency_pair_id", PyVal.str "pairid"), ("price", PyVal.str "50000.00000000"),
       ("ref_id", PyVal.str "ref"), ("time_in_force", PyVal.str "gtc")] : List (String × PyVal))
  ∧ ("type", PyVal.str "market") ∈
      ([("type", PyVal.str "market"), ("side", PyVal.str "buy"),
       ("quantity", PyVal.str "0.00200000"), ("account_id", PyVal.str "acc"),
       ("currency_pair_id", PyVal.str "pairid"), ("price", PyVal.str "50000.00000000"),
       ("ref_id", PyVal.str "ref"), ("time_in_force", PyVal.str "gtc")] : List (String × PyVal)) :=
  ⟨by rfl, by simp, by simp⟩

/-- Witness for the amended C9: the ask is echoed into the market
payload. -/
theorem crypto_market_price_echoed_witness :
    ("type", PyVal.str "market") ∈
      ([("type", PyVal.str "market"), ("side", PyVal.str "buy"),
       ("quantity", PyVal.str "0.00200000"), ("account_id", PyVal.str "acc"),
       ("currency_pair_id", PyVal.str "pairid"), ("price", PyVal.str "50000.00000000"),
       ("ref_id", PyVal.str "ref"), ("time_in_force", PyVal.str "gtc")] : List (String × PyVal))
  ∧ ("price", PyVal.str (fprice 50000)) ∈
      ([("type", PyVal.str "market"), ("side", PyVal.str "buy"),
       ("quantity", PyVal.str "0.00200000"), ("account_id", PyVal.str "acc"),
       ("currency_pair_id", PyVal.str "pairid"), ("price", PyVal.str "50000.00000000"),
       ("ref_id", PyVal.str "ref"), ("time_in_force", PyVal.str "gtc")] : List (String × PyVal)) :=
  crypto_market_price_echoed [("BTC", "pairid")] 50000 "acc" "ref" "BTC"
    { price_quantity := Option.some 100, side := Option.some "buy" }
    [("type", PyVal.str "market"), ("side", PyVal.str "buy"),
       ("quantity", PyVal.str "0.00200000"), ("account_id", PyVal.str "acc"),
       ("currency_pair_id", PyVal.str "pairid"), ("price", PyVal.str "50000.00000000"),
       ("ref_id", PyVal.str "ref"), ("time_in_force", PyVal.str "gtc")] rfl (by rfl)

end ConcreteEvaluations

end Robinhood
